import Mathlib

/-!
# Hidden-station validation scenario (`src/wifi-ofdma-validation.cc`)

A shallow embedding of `main` of the scenario script, and the properties of it that the
specification states.

Conventions of the embedding
* `uint32_t` and `uint64_t` values are natural numbers; every arithmetic operation the
  source performs on them is reduced `% 2 ^ 32` resp. `% 2 ^ 64`.
* `double` and `float` values are rational numbers and their operations are the exact
  rational operations: rounding, infinities and NaN are not part of the model, so the
  statements about throughput and percentages are statements "in exact arithmetic".
* What the simulation framework produces during `Simulator::Run` (the server's received
  packet count, the flow-monitor statistics) is an input of the embedded `main`.
* Indexing a `std::vector` past its end is undefined behaviour; the embedded read returns
  `none` there, and `main` returns `none` when it performs such a read.
-/

namespace WifiOfdmaValidation

/-! ## Configuration (lines 45-69) -/

/-- Width of `uint32_t`. -/
def U32 : Nat := 2 ^ 32

/-- Width of `uint64_t`. -/
def U64 : Nat := 2 ^ 64

/-- The variables of `main` that `CommandLine` lets the caller set (lines 59-68). -/
structure Config where
  payloadSize : Nat
  simulationTime : ℚ
  nMpdus : Nat
  enableRts : Bool
  minExpectedThroughput : ℚ
  maxExpectedThroughput : ℚ
deriving DecidableEq

/-- The initial values of lines 45-53. -/
def defaultConfig : Config :=
  { payloadSize := 1472
    simulationTime := 10
    nMpdus := 1
    enableRts := true
    minExpectedThroughput := 0
    maxExpectedThroughput := 0 }

/-! ## RTS/CTS threshold and aggregation limit (lines 71-82) -/

/-- Lines 71-79: the value given to `WifiRemoteStationManager::RtsCtsThreshold`. -/
def rtsCtsThreshold (enableRts : Bool) : Nat :=
  if !enableRts then 999999 else 0

/-- Line 82: `maxAmpduSize = nMpdus * (payloadSize + 200)`, both operations in
`uint32_t` arithmetic. -/
def maxAmpduSize (nMpdus payloadSize : Nat) : Nat :=
  (nMpdus * ((payloadSize + 200) % U32)) % U32

/-! ## Topology (lines 84-91 and 140-156) -/

/-- Line 86: `RangePropagationLossModel::MaxRange`. -/
def MaxRange : ℚ := 5

/-- Line 87. -/
def numStats : Nat := 4

/-- A position, `ns3::Vector`. The coordinates the script uses are small integers, which a
`double` holds exactly. -/
structure Vector where
  x : ℚ
  y : ℚ
  z : ℚ
deriving DecidableEq

/-- Lines 146-150: the positions added to the `ListPositionAllocator`, in the order of the
`Add` calls. -/
def positionAlloc : List Vector :=
  [⟨5, 5, 0⟩, ⟨5, 10, 0⟩, ⟨10, 5, 0⟩, ⟨5, 0, 0⟩, ⟨0, 5, 0⟩]

/-- The effect of `mobility.Install` on a container of `n` nodes: the nodes take, in
container order, the next `n` positions of the list allocator, whose cursor advances by
`n`. Returns the assigned positions and the new cursor. -/
def install (alloc : List Vector) (cursor n : Nat) : List Vector × Nat :=
  ((alloc.drop cursor).take n, cursor + n)

/-- Line 155: `mobility.Install(wifiApNode)` is the first installation, on one node. -/
def wifiApNodePositions : List Vector :=
  (install positionAlloc 0 1).1

/-- Line 156: `mobility.Install(wifiStaNodes)` follows, on `numStats` nodes. -/
def wifiStaNodesPositions : List Vector :=
  (install positionAlloc (install positionAlloc 0 1).2 numStats).1

/-- Position of the access point. -/
def apPosition : Vector :=
  wifiApNodePositions.headD ⟨0, 0, 0⟩

/-- Position of station `i`, counted from 0 in container order. -/
def staPosition (i : Fin 4) : Vector :=
  wifiStaNodesPositions.getD i.val ⟨0, 0, 0⟩

/-- Squared Euclidean distance of two positions. -/
def distSq (a b : Vector) : ℚ :=
  (a.x - b.x) ^ 2 + (a.y - b.y) ^ 2 + (a.z - b.z) ^ 2

/-- Modelled from the spec: the range test of the propagation model, which lives in the
simulation framework. `inRange` holds iff the Euclidean distance is at most `maxRange`;
for a non-negative `maxRange` that is the comparison of the squares, which is how it is
written here. -/
def inRange (maxRange : ℚ) (a b : Vector) : Prop :=
  distSq a b ≤ maxRange ^ 2

instance (maxRange : ℚ) (a b : Vector) : Decidable (inRange maxRange a b) := by
  unfold inRange
  infer_instance

/-- The point `m` is the midpoint of `a` and `b`. -/
def isMidpoint (m a b : Vector) : Prop :=
  2 * m.x = a.x + b.x ∧ 2 * m.y = a.y + b.y ∧ 2 * m.z = a.z + b.z

/-! ## Applications (lines 170-185) and the stop time (line 196) -/

/-- Line 179: the client sends one packet every `Time("0.0001")` seconds. -/
def clientInterval : ℚ := 1 / 10000

/-- Line 184: the clients start at `Seconds(1.0)`. -/
def clientStart : ℚ := 1

/-- Line 185: the clients stop at `Seconds(simulationTime + 1)`. -/
def clientStop (simulationTime : ℚ) : ℚ := simulationTime + 1

/-- Line 196: `Simulator::Stop(Seconds(simulationTime + 1))`. -/
def simulatorStop (simulationTime : ℚ) : ℚ := simulationTime + 1

/-- The number of packets one client emits between its start and its stop at one packet
per `clientInterval`: the offered load a drop percentage refers to. -/
def offered (simulationTime : ℚ) : ℚ :=
  (clientStop simulationTime - clientStart) / clientInterval

/-! ## What the simulation hands back (lines 198-205) -/

/-- The part of `FlowMonitor::FlowStats` that `main` reads: `packetsDropped`, a
`std::vector<uint32_t>` indexed by drop reason code. -/
structure FlowStats where
  packetsDropped : List Nat
deriving DecidableEq

/-- The flow statistics `std::map<FlowId, FlowMonitor::FlowStats>`, as key-record pairs. -/
abbrev FlowStatsMap := List (Nat × FlowStats)

/-- The results of `Simulator::Run` that `main` reads afterwards. -/
structure SimResult where
  /-- Line 200: `UdpServer::GetReceived()`, a `uint64_t`. -/
  received : Nat
  /-- Line 205: `monitor->GetFlowStats()`. -/
  stats : FlowStatsMap

/-- The `std::map::operator[]` of lines 207-208: the record under key `k`; a key that is
absent is inserted with a default-constructed record (an empty `packetsDropped`). Returns
the record and the map after the access. -/
def mapIndex (m : FlowStatsMap) (k : Nat) : FlowStats × FlowStatsMap :=
  match m.lookup k with
  | some fs => (fs, m)
  | none => (⟨[]⟩, m ++ [(k, ⟨[]⟩)])

/-- The drop count of flow `k` for reason code `reason` as the map holds it: `none` when
the map has no record for `k` or the record has no entry for `reason`. -/
def dropCount (reason : Nat) (m : FlowStatsMap) (k : Nat) : Option Nat :=
  (m.lookup k).bind fun fs => fs.packetsDropped[reason]?

/-! ## The reporting loop (lines 202-211) -/

/-- One line of line 209: station number, the value printed before the percent sign, the
value printed after it. -/
structure StationLine where
  station : Nat
  percent : ℚ
  count : ℚ
deriving DecidableEq

/-- The variables the loop of lines 206-210 updates, and the lines printed so far. -/
structure LoopState where
  stats : FlowStatsMap
  totalPackagesDropped : ℚ
  out : List StationLine

/-- Lines 207-209, one pass of the loop body for flow id `i`. `dropQueueDisc` is the value
of the enumerator `Ipv4FlowProbe::DROP_QUEUE_DISC`, declared in the framework. -/
def loopBody (dropQueueDisc i : Nat) (st : LoopState) : Option LoopState :=
  let r1 := mapIndex st.stats i
  match r1.1.packetsDropped[dropQueueDisc]? with
  | none => none
  | some d1 =>
    let totalPackagesDropped : ℚ := st.totalPackagesDropped + (d1 : ℚ)
    let r2 := mapIndex r1.2 i
    match r2.1.packetsDropped[dropQueueDisc]? with
    | none => none
    | some d2 =>
      let packetsDropped : ℚ := (d2 : ℚ)
      some
        { stats := r2.2
          totalPackagesDropped := totalPackagesDropped
          out := st.out ++ [⟨i, packetsDropped / 1000, packetsDropped⟩] }

/-- Lines 206-210: `for (int i = 1; i <= numStats; i++)`, entered with the counter at `i`. -/
def reportLoop (dropQueueDisc numStats : Nat) (i : Nat) (st : LoopState) :
    Option LoopState :=
  if i ≤ numStats then
    match loopBody dropQueueDisc i st with
    | none => none
    | some st1 => reportLoop dropQueueDisc numStats (i + 1) st1
  else
    some st
termination_by numStats + 1 - i
decreasing_by omega

/-- Line 211: the value printed before the percent sign of the total line. -/
def totalPercent (totalPackagesDropped : ℚ) (numStats : Nat) : ℚ :=
  totalPackagesDropped / 1000 / (numStats : ℚ)

/-! ## Throughput and the gate (lines 215-223) -/

/-- Line 215: `totalPacketsThrough * payloadSize * 8 / (simulationTime * 1000000.0)`. The
two products are `uint64_t` operations; the quotient is a `double` operation. -/
def throughput (totalPacketsThrough payloadSize : Nat) (simulationTime : ℚ) : ℚ :=
  (((totalPacketsThrough * payloadSize % U64 * 8 % U64 : Nat) : ℚ)) /
    (simulationTime * 1000000)

/-- Lines 217-223: the exit code, 1 from `exit(1)` and 0 from `return 0`. -/
def throughputGate (throughput minExpectedThroughput maxExpectedThroughput : ℚ) : Nat :=
  if throughput < minExpectedThroughput ∨
      (maxExpectedThroughput > 0 ∧ throughput > maxExpectedThroughput) then 1 else 0

/-! ## `main` -/

/-- What a run of `main` configures, prints and returns. -/
structure MainResult where
  rtsCtsThreshold : Nat
  maxAmpduSize : Nat
  stopTime : ℚ
  stations : List StationLine
  totalPercent : ℚ
  totalCount : ℚ
  throughput : ℚ
  exitCode : Nat
deriving DecidableEq

/-- The function `main` (lines 43-224) on a configuration and the results of the
simulation run. `none` is undefined behaviour in the reporting loop. -/
def main (dropQueueDisc : Nat) (cfg : Config) (sim : SimResult) : Option MainResult :=
  let threshold := rtsCtsThreshold cfg.enableRts
  let ampdu := maxAmpduSize cfg.nMpdus cfg.payloadSize
  let stop := simulatorStop cfg.simulationTime
  let totalPacketsThrough := sim.received
  match reportLoop dropQueueDisc numStats 1 ⟨sim.stats, 0, []⟩ with
  | none => none
  | some st =>
    let t := throughput totalPacketsThrough cfg.payloadSize cfg.simulationTime
    some
      { rtsCtsThreshold := threshold
        maxAmpduSize := ampdu
        stopTime := stop
        stations := st.out
        totalPercent := totalPercent st.totalPackagesDropped numStats
        totalCount := st.totalPackagesDropped
        throughput := t
        exitCode := throughputGate t cfg.minExpectedThroughput cfg.maxExpectedThroughput }

/-- The value of the enumerator `Ipv4FlowProbe::DROP_QUEUE_DISC` in the framework's
`DropReason` enumeration, used where a concrete run of `main` is evaluated. -/
def DROP_QUEUE_DISC : Nat := 4

/-- Flow statistics with a record for each of the flow ids 1..4 whose entries for
`DROP_QUEUE_DISC` hold `d1`, `d2`, `d3`, `d4`. -/
def fourStats (d1 d2 d3 d4 : Nat) : FlowStatsMap :=
  [(1, ⟨[0, 0, 0, 0, d1]⟩), (2, ⟨[0, 0, 0, 0, d2]⟩), (3, ⟨[0, 0, 0, 0, d3]⟩),
    (4, ⟨[0, 0, 0, 0, d4]⟩)]

/-- Flow statistics with a record for each of the flow ids 1..4 whose `packetsDropped` is
empty: flows on which no drop of any reason was recorded. -/
def noDropStats : FlowStatsMap :=
  [(1, ⟨[]⟩), (2, ⟨[]⟩), (3, ⟨[]⟩), (4, ⟨[]⟩)]

/-! ## The calls of `main` in program order -/

theorem loopBody_of_dropCount (reason i d : Nat) (st : LoopState)
    (h : dropCount reason st.stats i = some d) :
    loopBody reason i st =
      some
        { stats := st.stats
          totalPackagesDropped := st.totalPackagesDropped + (d : ℚ)
          out := st.out ++ [⟨i, (d : ℚ) / 1000, (d : ℚ)⟩] } := by
  unfold dropCount at h
  cases hl : List.lookup i st.stats with
  | none => simp [hl] at h
  | some fs =>
    have hd : fs.packetsDropped[reason]? = some d := by simpa [hl] using h
    simp [loopBody, mapIndex, hl, hd]

theorem reportLoop_step (reason n i : Nat) (st st1 : LoopState) (hi : i ≤ n)
    (hb : loopBody reason i st = some st1) :
    reportLoop reason n i st = reportLoop reason n (i + 1) st1 := by
  rw [reportLoop]
  simp [hi, hb]

theorem reportLoop_done (reason n i : Nat) (st : LoopState) (hi : n < i) :
    reportLoop reason n i st = some st := by
  rw [reportLoop]
  simp [Nat.not_le.mpr hi]

theorem reportLoop_four (reason : Nat) (stats : FlowStatsMap) (d1 d2 d3 d4 : Nat)
    (h1 : dropCount reason stats 1 = some d1) (h2 : dropCount reason stats 2 = some d2)
    (h3 : dropCount reason stats 3 = some d3) (h4 : dropCount reason stats 4 = some d4) :
    reportLoop reason numStats 1 ⟨stats, 0, []⟩ =
      some
        { stats := stats
          totalPackagesDropped := 0 + (d1 : ℚ) + (d2 : ℚ) + (d3 : ℚ) + (d4 : ℚ)
          out :=
            [⟨1, (d1 : ℚ) / 1000, (d1 : ℚ)⟩, ⟨2, (d2 : ℚ) / 1000, (d2 : ℚ)⟩,
              ⟨3, (d3 : ℚ) / 1000, (d3 : ℚ)⟩, ⟨4, (d4 : ℚ) / 1000, (d4 : ℚ)⟩] } := by
  rw [reportLoop_step reason numStats 1 _ _ (by decide)
    (loopBody_of_dropCount reason 1 d1 _ h1)]
  rw [reportLoop_step reason numStats 2 _ _ (by decide)
    (loopBody_of_dropCount reason 2 d2 _ h2)]
  rw [reportLoop_step reason numStats 3 _ _ (by decide)
    (loopBody_of_dropCount reason 3 d3 _ h3)]
  rw [reportLoop_step reason numStats 4 _ _ (by decide)
    (loopBody_of_dropCount reason 4 d4 _ h4)]
  rw [reportLoop_done reason numStats 5 _ (by decide)]
  simp

/-- On a statistics map without any record the first read of line 207 indexes the empty
`packetsDropped` of a freshly inserted record: `main` is undefined there. -/
theorem main_undefined_on_empty_stats (reason : Nat) (cfg : Config) (n : Nat) :
    main reason cfg ⟨n, []⟩ = none := by
  unfold main
  rw [reportLoop]
  simp [numStats, loopBody, mapIndex]

theorem staPositions_eq :
    wifiStaNodesPositions = [⟨5, 10, 0⟩, ⟨10, 5, 0⟩, ⟨5, 0, 0⟩, ⟨0, 5, 0⟩] := by
  rfl

theorem apPositions_eq : wifiApNodePositions = [⟨5, 5, 0⟩] := by
  rfl

theorem apPosition_eq : apPosition = ⟨5, 5, 0⟩ := by
  rfl

theorem staPosition_eq :
    staPosition 0 = ⟨5, 10, 0⟩ ∧ staPosition 1 = ⟨10, 5, 0⟩ ∧
      staPosition 2 = ⟨5, 0, 0⟩ ∧ staPosition 3 = ⟨0, 5, 0⟩ :=
  ⟨rfl, rfl, rfl, rfl⟩

theorem offered_eq (s : ℚ) : offered s = 10000 * s := by
  unfold offered clientStop clientStart clientInterval
  ring

/-- The percentage `main` prints, `d / 1000`, agrees with `100 * d / offered` exactly when
there is no drop or `simulationTime` is the default 10. -/
theorem printed_percent_eq_iff (d : Nat) (s : ℚ) (hs : 0 < s) :
    (d : ℚ) / 1000 = 100 * (d : ℚ) / offered s ↔ d = 0 ∨ s = 10 := by
  rw [offered_eq]
  have hs0 : s ≠ 0 := ne_of_gt hs
  constructor
  · intro h
    by_cases hd : d = 0
    · exact Or.inl hd
    · right
      have hdq : (d : ℚ) ≠ 0 := Nat.cast_ne_zero.mpr hd
      field_simp at h
      have h3 : (d : ℚ) * (10000 * s) = (d : ℚ) * (100 * 1000) := by linarith
      have h4 := mul_left_cancel₀ hdq h3
      linarith
  · rintro (hd | hs10)
    · simp [hd]
    · rw [hs10]
      ring

/-! ## Geometry of the hidden stations -/

/-- C1: with the positions handed out in installation order, the access point is at
(5,5,0) and the stations at (5,10,0), (10,5,0), (5,0,0), (0,5,0); every station `i` is in
range of the access point (squared distance at most 25) and every two distinct stations
`i`, `j` are out of range of each other (squared distance above 25), for `MaxRange = 5`. -/
theorem hidden_station_geometry (i j : Fin 4) (hij : i ≠ j) :
    wifiApNodePositions = [⟨5, 5, 0⟩] ∧
      wifiStaNodesPositions = [⟨5, 10, 0⟩, ⟨10, 5, 0⟩, ⟨5, 0, 0⟩, ⟨0, 5, 0⟩] ∧
      MaxRange = 5 ∧
      distSq apPosition (staPosition i) ≤ 25 ∧
      inRange MaxRange apPosition (staPosition i) ∧
      25 < distSq (staPosition i) (staPosition j) ∧
      ¬ inRange MaxRange (staPosition i) (staPosition j) := by
  refine ⟨apPositions_eq, staPositions_eq, rfl, ?_, ?_, ?_, ?_⟩
  · fin_cases i <;>
      norm_num [distSq, apPosition, staPosition, apPositions_eq, staPositions_eq]
  · fin_cases i <;>
      norm_num [inRange, MaxRange, distSq, apPosition, staPosition, apPositions_eq,
        staPositions_eq]
  · fin_cases i <;> fin_cases j <;>
      first
        | exact absurd rfl hij
        | norm_num [distSq, staPosition, staPositions_eq]
  · fin_cases i <;> fin_cases j <;>
      first
        | exact absurd rfl hij
        | norm_num [inRange, MaxRange, distSq, staPosition, staPositions_eq]

/-- Witness of C1 at the first two stations. -/
theorem hidden_station_geometry_witness :
    wifiApNodePositions = [⟨5, 5, 0⟩] ∧
      wifiStaNodesPositions = [⟨5, 10, 0⟩, ⟨10, 5, 0⟩, ⟨5, 0, 0⟩, ⟨0, 5, 0⟩] ∧
      MaxRange = 5 ∧
      distSq apPosition (staPosition 0) ≤ 25 ∧
      inRange MaxRange apPosition (staPosition 0) ∧
      25 < distSq (staPosition 0) (staPosition 1) ∧
      ¬ inRange MaxRange (staPosition 0) (staPosition 1) :=
  hidden_station_geometry 0 1 (by decide)

/-! ## The throughput gate -/

/-- C2, as stated, fails: with throughput 5, no lower bound and the upper bound -1 the
stated condition holds (the upper bound is not 0 and the throughput is above it), yet
`main` returns 0. -/
theorem throughputGate_negative_max_counterexample :
    ¬ (throughputGate 5 0 (-1) = 1 ↔
        (((0 : ℚ) ≠ 0 ∧ (5 : ℚ) < 0) ∨ ((-1 : ℚ) ≠ 0 ∧ (5 : ℚ) > -1))) := by
  norm_num [throughputGate]

/-- C2, amended: for every throughput and every pair of bounds the exit code is 1 iff the
throughput is below `minExpectedThroughput`, or `maxExpectedThroughput` is positive and
the throughput is above it; in every other case it is 0. -/
theorem throughputGate_spec (t mn mx : ℚ) :
    (throughputGate t mn mx = 1 ↔ (t < mn ∨ (0 < mx ∧ mx < t))) ∧
      (throughputGate t mn mx = 0 ↔ ¬ (t < mn ∨ (0 < mx ∧ mx < t))) := by
  unfold throughputGate
  by_cases h : t < mn ∨ (mx > 0 ∧ t > mx)
  · have h2 : t < mn ∨ (0 < mx ∧ mx < t) := h
    simp [h, h2]
  · have h2 : ¬ (t < mn ∨ (0 < mx ∧ mx < t)) := h
    simp only [if_neg h]
    refine ⟨⟨fun hc => ?_, fun hc => absurd hc h2⟩, ⟨fun _ => h2, fun _ => trivial⟩⟩
    exact absurd hc (by decide)

/-! ## The throughput formula -/

/-- C3: for a received-packet count `n` below `2 ^ 64`, a payload size `p` below `2 ^ 32`
and a simulation time `s > 0` with `n * p * 8 < 2 ^ 64`, the computed throughput is the
exact rational `(n * p) * 8 / (s * 10 ^ 6)`; for `p = 1472` and `s = 10` that is
`n * 1472 * 8 / (10 * 10 ^ 6)`. -/
theorem throughput_formula (n p : Nat) (s : ℚ) (_hn : n < 2 ^ 64) (_hp : p < 2 ^ 32)
    (_hs : 0 < s) (h : n * p * 8 < 2 ^ 64) :
    throughput n p s = (((n * p : Nat) : ℚ)) * 8 / (s * 10 ^ 6) ∧
      (p = 1472 → s = 10 → throughput n p s = (n : ℚ) * 1472 * 8 / (10 * 10 ^ 6)) := by
  have h1 : n * p < 2 ^ 64 := lt_of_le_of_lt (Nat.le_mul_of_pos_right _ (by decide)) h
  have e : throughput n p s = (((n * p : Nat) : ℚ)) * 8 / (s * 10 ^ 6) := by
    unfold throughput U64
    rw [Nat.mod_eq_of_lt h1, Nat.mod_eq_of_lt h]
    push_cast
    norm_num
  refine ⟨e, ?_⟩
  intro hp1 hs1
  rw [e, hp1, hs1]
  push_cast
  ring

/-- Witness of C3: 1000 received packets in the default scenario. -/
theorem throughput_formula_witness :
    throughput 1000 1472 10 = (((1000 * 1472 : Nat) : ℚ)) * 8 / ((10 : ℚ) * 10 ^ 6) ∧
      ((1472 : Nat) = 1472 → (10 : ℚ) = 10 →
        throughput 1000 1472 10 = ((1000 : Nat) : ℚ) * 1472 * 8 / (10 * 10 ^ 6)) :=
  throughput_formula 1000 1472 10 (by norm_num) (by norm_num) (by norm_num) (by norm_num)

/-! ## The aggregation limit -/

/-- C4, as stated, fails: for `nMpdus = 65536` and `payloadSize = 65536`, both `uint32_t`
values, the configured size is 13107200 and not the product 65536 * 65736. -/
theorem maxAmpduSize_wraps_counterexample :
    (65536 : Nat) < 2 ^ 32 ∧ maxAmpduSize 65536 65536 = 13107200 ∧
      maxAmpduSize 65536 65536 ≠ 65536 * (65536 + 200) := by
  decide

/-- C4, amended: whenever the product `nMpdus * (payloadSize + 200)` is below `2 ^ 32`,
the configured maximum A-MPDU size equals that product as a natural number; with the
defaults `nMpdus = 1` and `payloadSize = 1472` it is 1672. -/
theorem maxAmpduSize_eq_product (nMpdus payloadSize : Nat)
    (h : nMpdus * (payloadSize + 200) < 2 ^ 32) :
    maxAmpduSize nMpdus payloadSize = nMpdus * (payloadSize + 200) ∧
      maxAmpduSize defaultConfig.nMpdus defaultConfig.payloadSize = 1672 := by
  refine ⟨?_, by decide⟩
  unfold maxAmpduSize U32
  rcases Nat.eq_zero_or_pos nMpdus with h0 | hpos
  · simp [h0]
  · have hp : payloadSize + 200 < 2 ^ 32 :=
      lt_of_le_of_lt (Nat.le_mul_of_pos_left _ hpos) h
    rw [Nat.mod_eq_of_lt hp, Nat.mod_eq_of_lt h]

/-- Witness of C4 (amended) at `nMpdus = 64`, `payloadSize = 1472`. -/
theorem maxAmpduSize_eq_product_witness :
    maxAmpduSize 64 1472 = 64 * (1472 + 200) ∧
      maxAmpduSize defaultConfig.nMpdus defaultConfig.payloadSize = 1672 :=
  maxAmpduSize_eq_product 64 1472 (by decide)

/-! ## Negative simulation time -/

/-- C6 at a failing input: with `simulationTime = 1` each client offers 10000 packets; for
5000 queue drops per station `main` prints 5 before the percent sign, while
`100 * 5000 / offered` is 50. -/
theorem drop_percentage_simulationTime_one :
    (main DROP_QUEUE_DISC { defaultConfig with simulationTime := 1 }
          ⟨0, fourStats 5000 5000 5000 5000⟩).map (fun r => r.stations) =
        some [⟨1, 5, 5000⟩, ⟨2, 5, 5000⟩, ⟨3, 5, 5000⟩, ⟨4, 5, 5000⟩] ∧
      offered 1 = 10000 ∧ 100 * (5000 : ℚ) / offered 1 = 50 := by
  refine ⟨?_, ?_, ?_⟩
  · unfold main
    rw [reportLoop_four DROP_QUEUE_DISC (fourStats 5000 5000 5000 5000) 5000 5000 5000 5000
      rfl rfl rfl rfl]
    norm_num
  · norm_num [offered, clientStop, clientStart, clientInterval]
  · norm_num [offered, clientStop, clientStart, clientInterval]

/-! ## Zero traffic -/

/-- When the four reads of line 207 are defined and yield 0 and the server received no
packet, the throughput, every count and every percentage are 0 and, with both bounds 0,
the exit code is 0. -/
theorem zero_traffic_with_entries (reason : Nat) (cfg : Config) (sim : SimResult)
    (hrecv : sim.received = 0)
    (h1 : dropCount reason sim.stats 1 = some 0)
    (h2 : dropCount reason sim.stats 2 = some 0)
    (h3 : dropCount reason sim.stats 3 = some 0)
    (h4 : dropCount reason sim.stats 4 = some 0)
    (hmin : cfg.minExpectedThroughput = 0) (hmax : cfg.maxExpectedThroughput = 0) :
    ∃ r : MainResult,
      main reason cfg sim = some r ∧
        r.throughput = 0 ∧
        r.stations = [⟨1, 0, 0⟩, ⟨2, 0, 0⟩, ⟨3, 0, 0⟩, ⟨4, 0, 0⟩] ∧
        r.totalCount = 0 ∧ r.totalPercent = 0 ∧ r.exitCode = 0 := by
  have ht : throughput sim.received cfg.payloadSize cfg.simulationTime = 0 := by
    unfold throughput
    rw [hrecv]
    norm_num
  unfold main
  rw [reportLoop_four reason sim.stats 0 0 0 0 h1 h2 h3 h4]
  refine ⟨_, rfl, ht, ?_, ?_, ?_, ?_⟩
  · norm_num
  · norm_num
  · norm_num [totalPercent]
  · show throughputGate (throughput sim.received cfg.payloadSize cfg.simulationTime)
      cfg.minExpectedThroughput cfg.maxExpectedThroughput = 0
    rw [ht, hmin, hmax]
    norm_num [throughputGate]

/-- C7 at a failing input: in the default configuration, on a run in which the server
received nothing and no flow has a queue drop, `main` does not report zeros and return 0.
Whether the statistics hold no record at all or four records without a `DROP_QUEUE_DISC`
entry, no drop count can be read for the flows 1..4 and `main` is undefined at the read of
line 207. -/
theorem zero_traffic_undefined :
    0 < defaultConfig.simulationTime ∧
      defaultConfig.minExpectedThroughput = 0 ∧ defaultConfig.maxExpectedThroughput = 0 ∧
      (∀ i : Fin 5, dropCount DROP_QUEUE_DISC [] i.val = none) ∧
      (∀ i : Fin 5, dropCount DROP_QUEUE_DISC noDropStats i.val = none) ∧
      main DROP_QUEUE_DISC defaultConfig ⟨0, []⟩ = none ∧
      main DROP_QUEUE_DISC defaultConfig ⟨0, noDropStats⟩ = none := by
  refine ⟨by norm_num [defaultConfig], rfl, rfl, by decide, by decide, ?_, ?_⟩
  · exact main_undefined_on_empty_stats DROP_QUEUE_DISC defaultConfig 0
  · unfold main
    rw [reportLoop]
    simp [numStats, loopBody, mapIndex, noDropStats, DROP_QUEUE_DISC]

/-! ## Aggregation of the drop counts -/

/-- C8: for every flow-statistics map that holds, for each flow id 1..4, a record with an
entry `d1`, .., `d4` for `DROP_QUEUE_DISC`, `main` prints four station lines, line `i`
carrying the count of flow id `i` and the percentage `count / 1000`; the total count is
the sum of the four counts and the total percentage is the arithmetic mean of the four
per-station percentages. -/
theorem drop_aggregation (reason : Nat) (cfg : Config) (sim : SimResult) (d1 d2 d3 d4 : Nat)
    (h1 : dropCount reason sim.stats 1 = some d1)
    (h2 : dropCount reason sim.stats 2 = some d2)
    (h3 : dropCount reason sim.stats 3 = some d3)
    (h4 : dropCount reason sim.stats 4 = some d4) :
    ∃ r : MainResult,
      main reason cfg sim = some r ∧
        r.stations =
          [⟨1, (d1 : ℚ) / 1000, (d1 : ℚ)⟩, ⟨2, (d2 : ℚ) / 1000, (d2 : ℚ)⟩,
            ⟨3, (d3 : ℚ) / 1000, (d3 : ℚ)⟩, ⟨4, (d4 : ℚ) / 1000, (d4 : ℚ)⟩] ∧
        r.totalCount = (d1 : ℚ) + (d2 : ℚ) + (d3 : ℚ) + (d4 : ℚ) ∧
        r.totalCount = (r.stations.map fun l => l.count).sum ∧
        r.totalPercent = (r.stations.map fun l => l.percent).sum / 4 := by
  unfold main
  rw [reportLoop_four reason sim.stats d1 d2 d3 d4 h1 h2 h3 h4]
  refine ⟨_, rfl, rfl, ?_, ?_, ?_⟩
  · show (0 : ℚ) + d1 + d2 + d3 + d4 = d1 + d2 + d3 + d4
    ring
  · simp only [List.map, List.sum_cons, List.sum_nil]
    ring
  · simp only [List.map, List.sum_cons, List.sum_nil, totalPercent, numStats]
    push_cast
    ring

/-- Witness of C8 on the counts 7, 1, 0, 100. -/
theorem drop_aggregation_witness :
    ∃ r : MainResult,
      main DROP_QUEUE_DISC defaultConfig ⟨1000, fourStats 7 1 0 100⟩ = some r ∧
        r.stations =
          [⟨1, ((7 : Nat) : ℚ) / 1000, ((7 : Nat) : ℚ)⟩,
            ⟨2, ((1 : Nat) : ℚ) / 1000, ((1 : Nat) : ℚ)⟩,
            ⟨3, ((0 : Nat) : ℚ) / 1000, ((0 : Nat) : ℚ)⟩,
            ⟨4, ((100 : Nat) : ℚ) / 1000, ((100 : Nat) : ℚ)⟩] ∧
        r.totalCount =
          ((7 : Nat) : ℚ) + ((1 : Nat) : ℚ) + ((0 : Nat) : ℚ) + ((100 : Nat) : ℚ) ∧
        r.totalCount = (r.stations.map fun l => l.count).sum ∧
        r.totalPercent = (r.stations.map fun l => l.percent).sum / 4 :=
  drop_aggregation DROP_QUEUE_DISC defaultConfig ⟨1000, fourStats 7 1 0 100⟩ 7 1 0 100
    rfl rfl rfl rfl

/-! ## RTS/CTS threshold against the aggregation limit -/

/-- C9, as stated, fails: with RTS/CTS disabled, `nMpdus = 1000` and the default payload
size, the configured maximum A-MPDU size 1672000 is above the threshold 999999. -/
theorem rtsCtsThreshold_below_ampdu_counterexample :
    maxAmpduSize 1000 1472 = 1672000 ∧ rtsCtsThreshold false = 999999 ∧
      ¬ (maxAmpduSize 1000 1472 ≤ rtsCtsThreshold false) := by
  decide

/-- C9, amended: whenever `nMpdus * (payloadSize + 200)` is at most 999999, the threshold
configured with RTS/CTS disabled (999999) is at least the configured maximum A-MPDU size;
with RTS/CTS enabled the threshold is 0, so every frame of positive size exceeds it. -/
theorem rtsCtsThreshold_covers_ampdu (nMpdus payloadSize size : Nat)
    (h : nMpdus * (payloadSize + 200) ≤ 999999) (hsize : 0 < size) :
    rtsCtsThreshold false = 999999 ∧
      maxAmpduSize nMpdus payloadSize = nMpdus * (payloadSize + 200) ∧
      maxAmpduSize nMpdus payloadSize ≤ rtsCtsThreshold false ∧
      rtsCtsThreshold true = 0 ∧ rtsCtsThreshold true < size := by
  have hlt : nMpdus * (payloadSize + 200) < 2 ^ 32 := lt_of_le_of_lt h (by decide)
  have hm : maxAmpduSize nMpdus payloadSize = nMpdus * (payloadSize + 200) := by
    unfold maxAmpduSize U32
    rcases Nat.eq_zero_or_pos nMpdus with h0 | hpos
    · simp [h0]
    · have hp : payloadSize + 200 < 2 ^ 32 :=
        lt_of_le_of_lt (Nat.le_mul_of_pos_left _ hpos) hlt
      rw [Nat.mod_eq_of_lt hp, Nat.mod_eq_of_lt hlt]
  refine ⟨rfl, hm, ?_, rfl, ?_⟩
  · rw [hm]
    exact h
  · exact hsize

/-- Witness of C9 (amended) at the default `nMpdus = 1`, `payloadSize = 1472` and a frame
of 1 byte. -/
theorem rtsCtsThreshold_covers_ampdu_witness :
    rtsCtsThreshold false = 999999 ∧
      maxAmpduSize 1 1472 = 1 * (1472 + 200) ∧
      maxAmpduSize 1 1472 ≤ rtsCtsThreshold false ∧
      rtsCtsThreshold true = 0 ∧ rtsCtsThreshold true < 1 :=
  rtsCtsThreshold_covers_ampdu 1 1472 1 (by decide) (by decide)

/-! ## The separation the topology comment states -/

/-- C10, as stated, fails: the neighbouring stations 1 and 2, at (5,10,0) and (10,5,0),
are at squared distance 50, so they are not 10 meters apart. -/
theorem adjacent_stations_counterexample :
    staPosition 0 = ⟨5, 10, 0⟩ ∧ staPosition 1 = ⟨10, 5, 0⟩ ∧
      distSq (staPosition 0) (staPosition 1) = 50 ∧
      ¬ (distSq (staPosition 0) (staPosition 1) = 100) := by
  obtain ⟨e0, e1, _, _⟩ := staPosition_eq
  rw [e0, e1]
  norm_num [distSq]

/-- C10, amended: for the positions `main` assigns, every station is 5 meters from the
access point (squared distance 25); the access point lies between the two stations of each
opposite pair, being the midpoint of stations 1, 3 and of stations 2, 4, and those two are
10 meters apart (squared distance 100); two distinct stations `i`, `j` are 10 meters apart
exactly when the access point is their midpoint, are otherwise at squared distance 50, and
are in every case more than 5 meters apart. -/
theorem station_separation (i j : Fin 4) (hij : i ≠ j) :
    distSq apPosition (staPosition i) = 25 ∧
      isMidpoint apPosition (staPosition 0) (staPosition 2) ∧
      isMidpoint apPosition (staPosition 1) (staPosition 3) ∧
      distSq (staPosition 0) (staPosition 2) = 100 ∧
      distSq (staPosition 1) (staPosition 3) = 100 ∧
      (distSq (staPosition i) (staPosition j) = 100 ↔
        isMidpoint apPosition (staPosition i) (staPosition j)) ∧
      (distSq (staPosition i) (staPosition j) = 100 ∨
        distSq (staPosition i) (staPosition j) = 50) ∧
      25 < distSq (staPosition i) (staPosition j) := by
  obtain ⟨e0, e1, e2, e3⟩ := staPosition_eq
  have ea := apPosition_eq
  refine ⟨?_, ?_, ?_, ?_, ?_, ?_, ?_, ?_⟩
  · fin_cases i <;>
      (simp only [Fin.zero_eta, Fin.mk_one, Fin.reduceFinMk]
       rw [ea]
       simp only [e0, e1, e2, e3]
       norm_num [distSq])
  · rw [ea, e0, e2]
    norm_num [isMidpoint]
  · rw [ea, e1, e3]
    norm_num [isMidpoint]
  · rw [e0, e2]
    norm_num [distSq]
  · rw [e1, e3]
    norm_num [distSq]
  · fin_cases i <;> fin_cases j <;>
      first
        | exact absurd rfl hij
        | (simp only [Fin.zero_eta, Fin.mk_one, Fin.reduceFinMk]
           rw [ea]
           simp only [e0, e1, e2, e3]
           norm_num [distSq, isMidpoint])
  · fin_cases i <;> fin_cases j <;>
      first
        | exact absurd rfl hij
        | (simp only [Fin.zero_eta, Fin.mk_one, Fin.reduceFinMk]
           simp only [e0, e1, e2, e3]
           norm_num [distSq])
  · fin_cases i <;> fin_cases j <;>
      first
        | exact absurd rfl hij
        | (simp only [Fin.zero_eta, Fin.mk_one, Fin.reduceFinMk]
           simp only [e0, e1, e2, e3]
           norm_num [distSq])

/-- Witness of C10 (amended) at the neighbouring stations 1 and 2. -/
theorem station_separation_witness :
    distSq apPosition (staPosition 0) = 25 ∧
      isMidpoint apPosition (staPosition 0) (staPosition 2) ∧
      isMidpoint apPosition (staPosition 1) (staPosition 3) ∧
      distSq (staPosition 0) (staPosition 2) = 100 ∧
      distSq (staPosition 1) (staPosition 3) = 100 ∧
      (distSq (staPosition 0) (staPosition 1) = 100 ↔
        isMidpoint apPosition (staPosition 0) (staPosition 1)) ∧
      (distSq (staPosition 0) (staPosition 1) = 100 ∨
        distSq (staPosition 0) (staPosition 1) = 50) ∧
      25 < distSq (staPosition 0) (staPosition 1) :=
  station_separation 0 1 (by decide)

end WifiOfdmaValidation
